import Mathlib

/-!
Shallow embedding of the conversational booking backend (`src/main.py`,
`src/schemas.py`): the `/bot/update` webhook handler `bot_update`, the admin
gate `require_admin`, and the document-store state it manipulates.

The document store is modelled as two in-memory collections, `botsession`
and `appointment`.  MongoDB documents whose shape is an open dict
(`BotSession.data` and the appointment document built by the bot flow) are
modelled as association lists from string keys to scalar values.  Generated
object ids are modelled as insertion counters (id generation is opaque to
the program; only distinctness within a run matters, and the program never
compares ids).
-/

/-- Scalar value stored in a session's `data` dict or an appointment
document: the bot flow stores strings and one integer
(`telegram_user_id`). -/
inductive Val where
  | str (s : String)
  | int (n : Int)
deriving DecidableEq

/-- Lookup of `d[k]` in a Python dict modelled as an association list. -/
def dictGet : List (String × Val) → String → Option Val
  | [], _ => none
  | (k', v') :: rest, k => if k' = k then some v' else dictGet rest k

/-- Assignment `d[k] = v` in a Python dict modelled as an association list:
overwrite the existing binding in place, or append a new one. -/
def dictSet : List (String × Val) → String → Val → List (String × Val)
  | [], k, v => [(k, v)]
  | (k', v') :: rest, k, v =>
      if k' = k then (k, v) :: rest else (k', v') :: dictSet rest k v

/-- Python `str.strip()` with no argument: remove leading and trailing
whitespace. -/
def pyStrip (s : String) : String :=
  String.mk (((s.data.dropWhile Char.isWhitespace).reverse.dropWhile
    Char.isWhitespace).reverse)

/-- A stored `botsession` document (`src/schemas.py`, class `BotSession`):
`sid` is the Mongo `_id`, `telegram_user_id` the external user id, `state`
the free-form state tag, `data` the accumulated answers dict. -/
structure Session where
  sid : Nat
  telegram_user_id : Int
  state : String
  data : List (String × Val)
deriving DecidableEq

/-- The document store: `botsession` and `appointment` collections.  An
appointment document is the dict inserted by the program. -/
structure Store where
  botsessions : List Session
  appointments : List (List (String × Val))
deriving DecidableEq

/-- Request body of `POST /bot/update` (`src/main.py`, class
`TelegramUpdate`): all fields optional. -/
structure TelegramUpdate where
  message_text : Option String
  user_id : Option Int
  username : Option String
deriving DecidableEq

/-- Successful JSON response of `bot_update`: a reply text and a state
tag. -/
structure BotReply where
  reply : String
  state : String
deriving DecidableEq

/-- Failure outcomes of the handlers: `HTTPException(code, detail)` raised
by the code itself, or a failure of a document-store write propagating
through the handler. -/
inductive Err where
  | httpError (code : Nat) (detail : String)
  | persistenceError
deriving DecidableEq

/-- Reply literals of `bot_update` (`src/main.py`), in order of
appearance. -/
def greetingReply : String := "Привет! Как тебя зовут?"

/-- Reprompt sent when `ask_name` receives empty/whitespace-only text. -/
def repromptNameReply : String := "Напиши, пожалуйста, как к тебе обращаться"

/-- Prompt for a phone or handle, sent when leaving `ask_name`. -/
def askPhoneReply : String := "Оставь телефон или @username для связи"

/-- Prompt for a date, sent when leaving `ask_phone`. -/
def askDateReply : String := "Когда тебе удобно? Укажи дату (например, 2025-11-20)"

/-- Prompt for a time, sent when leaving `ask_date`. -/
def askTimeReply : String := "А во сколько примерно?"

/-- Prompt for a note, sent when leaving `ask_time`. -/
def askNoteReply : String := "Добавь пожелания по стилю/размеру (или напиши — нет)"

/-- Confirmation sent when the booking is finalized; embeds the new
appointment id. -/
def doneReply (app_id : String) : String :=
  "Готово! Я записал заявку №" ++ app_id ++ ". Мы свяжемся с тобой."

/-- Fallback reply of the final `return` of `bot_update`, reached when the
stored state tag matches none of the five `ask_` branches. -/
def fallbackReply : String := "Напиши любое сообщение, чтобы начать запись"

/-- `find_one("botsession", set telegram_user_id to uid)`: first stored
session with the given external user id. -/
def findSession : List Session → Int → Option Session
  | [], _ => none
  | t :: rest, uid =>
      if t.telegram_user_id = uid then some t else findSession rest uid

/-- `update_one` on `botsession` with a `set` patch of both `state` and
`data`, filtered by `_id` (used by the `ask_name` .. `ask_time`
branches). -/
def setStateData (sessions : List Session) (sid : Nat) (newState : String)
    (newData : List (String × Val)) : List Session :=
  sessions.map fun t =>
    if t.sid = sid then { t with state := newState, data := newData } else t

/-- `update_one` on `botsession` with a `set` patch of `state` only,
filtered by `_id` (used by the `ask_note` branch, which does not patch
`data`). -/
def setStateOnly (sessions : List Session) (sid : Nat)
    (newState : String) : List Session :=
  sessions.map fun t =>
    if t.sid = sid then { t with state := newState } else t

/-- Modelled from the spec: `create_document` lives in `database.py`, which
is not under `src/`.  Per the spec (Document Store `insert(collection,
document) -> id`; section 6 persisted shapes, Appointment has
`status="new"`) and the `Appointment` schema defaults in `src/schemas.py`
(`status` defaults to `"new"`, `source` to `"site"`), an insert into the
`appointment` collection persists the given document with the schema
defaults filled in for absent fields; defaults for fields whose schema
default is `None` add nothing observable and are omitted. -/
def apptWithDefaults (d : List (String × Val)) : List (String × Val) :=
  let d1 := if (dictGet d "status").isNone then dictSet d "status" (.str "new") else d
  if (dictGet d1 "source").isNone then dictSet d1 "source" (.str "site") else d1

/-- `get_admin_secret` (`src/main.py`): the `ADMIN_PASSWORD` environment
variable, falling back to `"admin123"` when unset. -/
def get_admin_secret (adminPasswordEnv : Option String) : String :=
  adminPasswordEnv.getD "admin123"

/-- `require_admin` (`src/main.py`): raise `HTTPException(401,
"Unauthorized")` when the supplied password differs from the configured
secret, otherwise succeed. -/
def require_admin (password : String) (adminPasswordEnv : Option String) :
    Except Err Unit :=
  if password ≠ get_admin_secret adminPasswordEnv then
    .error (.httpError 401 "Unauthorized")
  else
    .ok ()

/-- The `POST /bot/update` handler `bot_update` (`src/main.py`).
`dbConfigured` models `db is not None`; `apptInsertFails` models whether
the `create_document("appointment", data)` write raises (the store is
external, so its failure is an input of the model).  The result pairs the
store after the call with either the JSON reply or the raised error; a
raised error leaves every write that had not yet executed unperformed. -/
def bot_update (dbConfigured apptInsertFails : Bool) (st : Store)
    (u : TelegramUpdate) : Store × Except Err BotReply :=
  if dbConfigured then
    match u.user_id with
    | none => (st, .error (.httpError 400 "user_id required"))
    | some user_id =>
      match findSession st.botsessions user_id with
      | none =>
          -- create the session, re-fetch it by its new id, greet
          let newSession : Session :=
            { sid := st.botsessions.length, telegram_user_id := user_id,
              state := "ask_name", data := [] }
          ({ st with botsessions := st.botsessions ++ [newSession] },
           .ok { reply := greetingReply, state := newSession.state })
      | some session =>
          let state := session.state
          let data := session.data
          let text := pyStrip (u.message_text.getD "")
          if state = "ask_name" then
            if text = "" then
              (st, .ok { reply := repromptNameReply, state := state })
            else
              let data1 := dictSet data "client_name" (.str text)
              ({ st with botsessions :=
                  setStateData st.botsessions session.sid "ask_phone" data1 },
               .ok { reply := askPhoneReply, state := "ask_phone" })
          else if state = "ask_phone" then
            let data1 := dictSet data "phone" (.str text)
            ({ st with botsessions :=
                setStateData st.botsessions session.sid "ask_date" data1 },
             .ok { reply := askDateReply, state := "ask_date" })
          else if state = "ask_date" then
            let data1 := dictSet data "preferred_date" (.str text)
            ({ st with botsessions :=
                setStateData st.botsessions session.sid "ask_time" data1 },
             .ok { reply := askTimeReply, state := "ask_time" })
          else if state = "ask_time" then
            let data1 := dictSet data "preferred_time" (.str text)
            ({ st with botsessions :=
                setStateData st.botsessions session.sid "ask_note" data1 },
             .ok { reply := askNoteReply, state := "ask_note" })
          else if state = "ask_note" then
            let data1 := dictSet data "note" (.str text)
            let data2 := dictSet data1 "source" (.str "bot")
            let data3 := dictSet data2 "telegram_user_id" (.int user_id)
            if apptInsertFails then
              (st, .error .persistenceError)
            else
              let app_id := toString st.appointments.length
              let st1 := { st with
                appointments := st.appointments ++ [apptWithDefaults data3] }
              let st2 := { st1 with
                botsessions := setStateOnly st1.botsessions session.sid "complete" }
              (st2, .ok { reply := doneReply app_id, state := "complete" })
          else
            (st, .ok { reply := fallbackReply, state := "ask_name" })
  else
    (st, .error (.httpError 500 "Database not configured"))

example :
    bot_update true false { botsessions := [], appointments := [] }
      { message_text := some "hi", user_id := some 42, username := none } =
    ({ botsessions := [⟨0, 42, "ask_name", []⟩], appointments := [] },
     .ok { reply := greetingReply, state := "ask_name" }) := by
  rfl

example : pyStrip "  an swer " = "an swer" := by decide

/-! Helper lemmas about the dict and collection operations. -/

theorem dictGet_dictSet_self (d : List (String × Val)) (k : String) (v : Val) :
    dictGet (dictSet d k v) k = some v := by
  induction d with
  | nil => simp [dictSet, dictGet]
  | cons p rest ih =>
    obtain ⟨k', v'⟩ := p
    by_cases h : k' = k
    · simp [dictSet, dictGet, h]
    · simp [dictSet, dictGet, h, ih]

theorem dictGet_dictSet_ne (d : List (String × Val)) (k₁ k₂ : String) (v : Val)
    (h : k₂ ≠ k₁) : dictGet (dictSet d k₁ v) k₂ = dictGet d k₂ := by
  have h2 : k₁ ≠ k₂ := Ne.symm h
  induction d with
  | nil => simp [dictSet, dictGet, h2]
  | cons p rest ih =>
    obtain ⟨k', v'⟩ := p
    by_cases h' : k' = k₁
    · subst h'
      simp [dictSet, dictGet, h2]
    · by_cases h'' : k' = k₂ <;> simp [dictSet, dictGet, h', h'', ih, h]

theorem findSession_map (f : Session → Session)
    (hf : ∀ t, (f t).telegram_user_id = t.telegram_user_id)
    (sessions : List Session) (uid : Int) (s : Session)
    (h : findSession sessions uid = some s) :
    findSession (sessions.map f) uid = some (f s) := by
  induction sessions with
  | nil => simp [findSession] at h
  | cons a as ih =>
    by_cases hb : a.telegram_user_id = uid
    · simp only [findSession, hb, if_pos] at h
      injection h with h
      subst h
      simp [findSession, hf a, hb]
    · simp only [findSession, hb, if_false, ite_false] at h
      simp only [List.map_cons, findSession, hf a, hb, ite_false, if_false]
      exact ih h

theorem findSession_setStateData (sessions : List Session) (uid : Int)
    (s : Session) (h : findSession sessions uid = some s) (sid : Nat)
    (ns : String) (nd : List (String × Val)) :
    findSession (setStateData sessions sid ns nd) uid =
      some (if s.sid = sid then { s with state := ns, data := nd } else s) := by
  refine findSession_map _ ?_ sessions uid s h
  intro t
  by_cases ht : t.sid = sid <;> simp [ht]

theorem findSession_setStateOnly (sessions : List Session) (uid : Int)
    (s : Session) (h : findSession sessions uid = some s) (sid : Nat)
    (ns : String) :
    findSession (setStateOnly sessions sid ns) uid =
      some (if s.sid = sid then { s with state := ns } else s) := by
  refine findSession_map _ ?_ sessions uid s h
  intro t
  by_cases ht : t.sid = sid <;> simp [ht]

theorem dictGet_apptWithDefaults (d : List (String × Val)) (k : String)
    (h1 : k ≠ "status") (h2 : k ≠ "source") :
    dictGet (apptWithDefaults d) k = dictGet d k := by
  simp only [apptWithDefaults]
  split <;> split <;>
    simp [dictGet_dictSet_ne _ _ _ _ h1, dictGet_dictSet_ne _ _ _ _ h2]

theorem dictGet_apptWithDefaults_status (d : List (String × Val))
    (h : dictGet d "status" = none) :
    dictGet (apptWithDefaults d) "status" = some (.str "new") := by
  simp only [apptWithDefaults, h, Option.isNone_none, if_true]
  split <;> simp [dictGet_dictSet_self, dictGet_dictSet_ne]

theorem dictGet_apptWithDefaults_source (d : List (String × Val)) (v : Val)
    (h : dictGet d "source" = some v) :
    dictGet (apptWithDefaults d) "source" = some v := by
  simp only [apptWithDefaults]
  split
  · have h' : dictGet (dictSet d "status" (.str "new")) "source" = some v := by
      rw [dictGet_dictSet_ne _ _ _ _ (by decide)]
      exact h
    simp [h']
  · simp [h]

theorem dictGet_finalizedData (d : List (String × Val)) (text : String)
    (uid : Int) (k : String) (h1 : k ≠ "note") (h2 : k ≠ "source")
    (h3 : k ≠ "telegram_user_id") :
    dictGet (dictSet (dictSet (dictSet d "note" (.str text)) "source"
      (.str "bot")) "telegram_user_id" (.int uid)) k = dictGet d k := by
  rw [dictGet_dictSet_ne _ _ _ _ h3, dictGet_dictSet_ne _ _ _ _ h2,
    dictGet_dictSet_ne _ _ _ _ h1]

/-! Theorems about the claims. -/

/-- C9: for every supplied password, `require_admin` fails with
Unauthorized (401) if and only if the password does not equal the
configured secret, and the secret falls back to `"admin123"` when the
`ADMIN_PASSWORD` environment variable is unset. -/
theorem admin_gate_unauthorized_iff (password : String) (env : Option String) :
    (require_admin password env = .error (.httpError 401 "Unauthorized") ↔
      password ≠ get_admin_secret env) ∧
    get_admin_secret none = "admin123" := by
  refine ⟨?_, rfl⟩
  by_cases hp : password = get_admin_secret env <;> simp [require_admin, hp]

/-- C8: a `/bot/update` call made while the document store is unavailable
fails with HTTP 500 (whatever the body), and a call with the store
available but `user_id` missing fails with HTTP 400; neither touches the
store. -/
theorem bot_webhook_errors (ins : Bool) (st : Store) (u : TelegramUpdate) :
    bot_update false ins st u =
      (st, .error (.httpError 500 "Database not configured")) ∧
    (u.user_id = none →
      bot_update true ins st u =
        (st, .error (.httpError 400 "user_id required"))) := by
  constructor
  · simp [bot_update]
  · intro h
    simp [bot_update, h]

/-- C8 witness: a request with no `user_id` against a configured store
fails with HTTP 400. -/
theorem bot_webhook_errors_witness :
    bot_update true false ⟨[], []⟩ ⟨none, none, none⟩ =
      ((⟨[], []⟩ : Store), .error (.httpError 400 "user_id required")) :=
  (bot_webhook_errors false ⟨[], []⟩ ⟨none, none, none⟩).2 rfl

/-- C7: for every external user id with no stored session, the first call
creates exactly one session, with state `ask_name`, empty answers and the
caller's user id, creates no appointment, and returns the fixed greeting
with state `ask_name`, regardless of the message text (no transition
runs). -/
theorem first_contact_creates_one_session (ins : Bool) (st : Store)
    (m un : Option String) (uid : Int)
    (hfind : findSession st.botsessions uid = none) :
    ∃ ns : Session,
      bot_update true ins st ⟨m, some uid, un⟩ =
        ({ st with botsessions := st.botsessions ++ [ns] },
         .ok ⟨greetingReply, "ask_name"⟩) ∧
      ns.state = "ask_name" ∧ ns.data = [] ∧ ns.telegram_user_id = uid := by
  refine ⟨⟨st.botsessions.length, uid, "ask_name", []⟩, ?_, rfl, rfl, rfl⟩
  simp [bot_update, hfind]

/-- C7 witness: user id 42, never seen, message `"hi"`: one fresh
`ask_name` session with empty answers, greeting reply. -/
theorem first_contact_creates_one_session_witness :
    ∃ ns : Session,
      bot_update true false ⟨[], []⟩ ⟨some "hi", some 42, none⟩ =
        ({ (⟨[], []⟩ : Store) with botsessions := [] ++ [ns] },
         .ok ⟨greetingReply, "ask_name"⟩) ∧
      ns.state = "ask_name" ∧ ns.data = [] ∧ ns.telegram_user_id = 42 :=
  first_contact_creates_one_session false ⟨[], []⟩ (some "hi") none 42 rfl

/-- C10: for every stored session whose state tag is none of the six
defined tags, processing any message performs no store write, creates no
booking, leaves the stored session unchanged, and returns the fixed
fallback reply with response state `"ask_name"`. -/
theorem unknown_state_fallback (ins : Bool) (st : Store) (m un : Option String)
    (uid : Int) (s : Session)
    (hfind : findSession st.botsessions uid = some s)
    (hs : s.state ∉ (["ask_name", "ask_phone", "ask_date", "ask_time",
      "ask_note", "complete"] : List String)) :
    bot_update true ins st ⟨m, some uid, un⟩ =
      (st, .ok ⟨fallbackReply, "ask_name"⟩) := by
  simp only [List.mem_cons, List.mem_singleton, List.not_mem_nil, or_false,
    not_or] at hs
  obtain ⟨h1, h2, h3, h4, h5, -⟩ := hs
  simp [bot_update, hfind, h1, h2, h3, h4, h5]

/-- C10 witness: a session stored with the schema-default tag `"start"`
gets the fallback reply, with the store untouched. -/
theorem unknown_state_fallback_witness :
    bot_update true false ⟨[⟨0, 7, "start", []⟩], []⟩ ⟨some "hi", some 7, none⟩ =
      ((⟨[⟨0, 7, "start", []⟩], []⟩ : Store),
       .ok ⟨fallbackReply, "ask_name"⟩) :=
  unknown_state_fallback false ⟨[⟨0, 7, "start", []⟩], []⟩ (some "hi") none 7
    ⟨0, 7, "start", []⟩ rfl (by decide)

/-- C2 (amended): for every session in state `complete` and every inbound
message, the operation creates no booking and leaves the stored session
unchanged (the whole store is untouched), and returns the fixed
"start a new booking" reply — but with response state tag `"ask_name"`,
not the session's state tag `"complete"`. -/
theorem complete_state_fallback (ins : Bool) (st : Store) (m un : Option String)
    (uid : Int) (s : Session)
    (hfind : findSession st.botsessions uid = some s)
    (hs : s.state = "complete") :
    bot_update true ins st ⟨m, some uid, un⟩ =
      (st, .ok ⟨fallbackReply, "ask_name"⟩) := by
  simp [bot_update, hfind, hs]

/-- C2 witness: a stored `complete` session, message `"hi"`: store
untouched, fallback reply with state `"ask_name"`. -/
theorem complete_state_fallback_witness :
    bot_update true false ⟨[⟨0, 7, "complete", []⟩], []⟩ ⟨some "hi", some 7, none⟩ =
      ((⟨[⟨0, 7, "complete", []⟩], []⟩ : Store),
       .ok ⟨fallbackReply, "ask_name"⟩) :=
  complete_state_fallback false ⟨[⟨0, 7, "complete", []⟩], []⟩ (some "hi") none 7
    ⟨0, 7, "complete", []⟩ rfl rfl

/-- C2 counterexample: with a stored session in state `complete`, the
response carries state tag `"ask_name"`, which differs from the session's
state tag `"complete"` — the claim that the reply comes "together with the
session's state tag" fails on this input. -/
theorem complete_state_reply_tag_counterexample :
    (bot_update true false ⟨[⟨0, 7, "complete", []⟩], []⟩
        ⟨some "hi", some 7, none⟩).2 =
      .ok ⟨fallbackReply, "ask_name"⟩ ∧ ("ask_name" : String) ≠ "complete" :=
  ⟨rfl, by decide⟩

/-- C5: at `ask_name`, text that is empty after trimming leaves the whole
store unchanged (state stays `ask_name`, answers unmodified) with the
reprompt reply; text that is non-empty after trimming records
`client_name` and advances the session to `ask_phone`. -/
theorem ask_name_transition (ins : Bool) (st : Store) (m un : Option String)
    (uid : Int) (s : Session)
    (hfind : findSession st.botsessions uid = some s)
    (hs : s.state = "ask_name") :
    (pyStrip (m.getD "") = "" →
      bot_update true ins st ⟨m, some uid, un⟩ =
        (st, .ok ⟨repromptNameReply, "ask_name"⟩)) ∧
    (pyStrip (m.getD "") ≠ "" →
      findSession (bot_update true ins st ⟨m, some uid, un⟩).1.botsessions uid =
        some { s with state := "ask_phone",
                      data := dictSet s.data "client_name"
                        (.str (pyStrip (m.getD ""))) } ∧
      dictGet (dictSet s.data "client_name" (.str (pyStrip (m.getD ""))))
          "client_name" = some (.str (pyStrip (m.getD ""))) ∧
      (bot_update true ins st ⟨m, some uid, un⟩).2 =
        .ok ⟨askPhoneReply, "ask_phone"⟩ ∧
      (bot_update true ins st ⟨m, some uid, un⟩).1.appointments =
        st.appointments) := by
  constructor
  · intro he
    simp [bot_update, hfind, hs, he]
  · intro hne
    have hrun : bot_update true ins st ⟨m, some uid, un⟩ =
        ({ st with
            botsessions :=
              setStateData st.botsessions s.sid "ask_phone"
                (dictSet s.data "client_name" (.str (pyStrip (m.getD "")))) },
         .ok ⟨askPhoneReply, "ask_phone"⟩) := by
      simp [bot_update, hfind, hs, hne]
    rw [hrun]
    refine ⟨?_, dictGet_dictSet_self _ _ _, rfl, rfl⟩
    have hupd := findSession_setStateData st.botsessions uid s hfind s.sid
      "ask_phone" (dictSet s.data "client_name" (.str (pyStrip (m.getD ""))))
    rw [if_pos rfl] at hupd
    exact hupd

/-- C5 witness: at `ask_name`, the whitespace-only message `"  "` leaves
the store untouched with the reprompt, and the message `" Alex "` records
`client_name = "Alex"` and advances to `ask_phone`. -/
theorem ask_name_transition_witness :
    (bot_update true false ⟨[⟨0, 7, "ask_name", []⟩], []⟩
        ⟨some "  ", some 7, none⟩ =
      ((⟨[⟨0, 7, "ask_name", []⟩], []⟩ : Store),
       .ok ⟨repromptNameReply, "ask_name"⟩)) ∧
    (findSession (bot_update true false ⟨[⟨0, 7, "ask_name", []⟩], []⟩
        ⟨some " Alex ", some 7, none⟩).1.botsessions 7 =
      some ⟨0, 7, "ask_phone", [("client_name", .str "Alex")]⟩) :=
  ⟨(ask_name_transition false ⟨[⟨0, 7, "ask_name", []⟩], []⟩ (some "  ") none 7
      ⟨0, 7, "ask_name", []⟩ rfl rfl).1 rfl,
   ((ask_name_transition false ⟨[⟨0, 7, "ask_name", []⟩], []⟩ (some " Alex ")
      none 7 ⟨0, 7, "ask_name", []⟩ rfl rfl).2 (by decide)).1⟩

/-- C6 (amended): for every session in one of the states `ask_phone`,
`ask_date`, `ask_time` and every message text (including the empty
string), the session advances to the next state in the fixed order
`ask_phone → ask_date → ask_time → ask_note`, and the trimmed message text
(not the text as-is: the code strips it first) is stored under the
corresponding answer key `phone`, `preferred_date`, `preferred_time`; no
appointment is created. -/
theorem middle_states_advance_trimmed (ins : Bool) (st : Store)
    (m un : Option String) (uid : Int) (s : Session) (k nxt rep : String)
    (hfind : findSession st.botsessions uid = some s)
    (htr : (s.state, k, nxt, rep) ∈
      ([("ask_phone", "phone", "ask_date", askDateReply),
        ("ask_date", "preferred_date", "ask_time", askTimeReply),
        ("ask_time", "preferred_time", "ask_note", askNoteReply)] :
        List (String × String × String × String))) :
    bot_update true ins st ⟨m, some uid, un⟩ =
      ({ st with
          botsessions :=
            setStateData st.botsessions s.sid nxt
              (dictSet s.data k (.str (pyStrip (m.getD "")))) },
       .ok ⟨rep, nxt⟩) ∧
    findSession (bot_update true ins st ⟨m, some uid, un⟩).1.botsessions uid =
      some { s with state := nxt,
                    data := dictSet s.data k (.str (pyStrip (m.getD ""))) } ∧
    (bot_update true ins st ⟨m, some uid, un⟩).1.appointments =
      st.appointments := by
  have hupd := findSession_setStateData st.botsessions uid s hfind s.sid nxt
    (dictSet s.data k (.str (pyStrip (m.getD ""))))
  rw [if_pos rfl] at hupd
  simp only [List.mem_cons, List.not_mem_nil, or_false, Prod.mk.injEq] at htr
  rcases htr with ⟨hs, hk, hn, hr⟩ | ⟨hs, hk, hn, hr⟩ | ⟨hs, hk, hn, hr⟩
  · subst hk; subst hn; subst hr
    have hrun : bot_update true ins st ⟨m, some uid, un⟩ =
        ({ st with
            botsessions :=
              setStateData st.botsessions s.sid "ask_date"
                (dictSet s.data "phone" (.str (pyStrip (m.getD "")))) },
         .ok ⟨askDateReply, "ask_date"⟩) := by
      simp [bot_update, hfind, hs]
    rw [hrun]
    exact ⟨rfl, hupd, rfl⟩
  · subst hk; subst hn; subst hr
    have hrun : bot_update true ins st ⟨m, some uid, un⟩ =
        ({ st with
            botsessions :=
              setStateData st.botsessions s.sid "ask_time"
                (dictSet s.data "preferred_date" (.str (pyStrip (m.getD "")))) },
         .ok ⟨askTimeReply, "ask_time"⟩) := by
      simp [bot_update, hfind, hs]
    rw [hrun]
    exact ⟨rfl, hupd, rfl⟩
  · subst hk; subst hn; subst hr
    have hrun : bot_update true ins st ⟨m, some uid, un⟩ =
        ({ st with
            botsessions :=
              setStateData st.botsessions s.sid "ask_note"
                (dictSet s.data "preferred_time" (.str (pyStrip (m.getD "")))) },
         .ok ⟨askNoteReply, "ask_note"⟩) := by
      simp [bot_update, hfind, hs]
    rw [hrun]
    exact ⟨rfl, hupd, rfl⟩

/-- C6 witness: a session at `ask_phone` receiving `"+1555"` advances to
`ask_date` and stores `phone = "+1555"`. -/
theorem middle_states_advance_trimmed_witness :
    bot_update true false ⟨[⟨0, 7, "ask_phone", [("client_name", .str "A")]⟩], []⟩
        ⟨some "+1555", some 7, none⟩ =
      ({ (⟨[⟨0, 7, "ask_phone", [("client_name", .str "A")]⟩], []⟩ : Store) with
          botsessions :=
            setStateData [⟨0, 7, "ask_phone", [("client_name", .str "A")]⟩] 0
              "ask_date"
              (dictSet [("client_name", .str "A")] "phone"
                (.str (pyStrip ((some "+1555").getD "")))) },
       .ok ⟨askDateReply, "ask_date"⟩) :=
  (middle_states_advance_trimmed false
    ⟨[⟨0, 7, "ask_phone", [("client_name", .str "A")]⟩], []⟩ (some "+1555") none
    7 ⟨0, 7, "ask_phone", [("client_name", .str "A")]⟩ "phone" "ask_date"
    askDateReply rfl (by simp)).1

/-- C6 counterexample: at `ask_phone` the message `" 123 "` is stored as
`"123"`: the code strips the text before storing it, so the text is not
stored as-is. -/
theorem middle_states_as_is_counterexample :
    (findSession (bot_update true false ⟨[⟨0, 7, "ask_phone", []⟩], []⟩
        ⟨some " 123 ", some 7, none⟩).1.botsessions 7).map
      (fun t => dictGet t.data "phone") = some (some (.str "123")) ∧
    Val.str "123" ≠ Val.str " 123 " :=
  ⟨rfl, by decide⟩

/-- C4: if the appointment insert performed while finalizing at `ask_note`
fails, the failure propagates to the caller, no booking is recorded, and
the session is not advanced (the whole store, hence the `ask_note` state,
is unchanged); when the insert succeeds, exactly one booking is appended
(never speculatively, never retried). -/
theorem finalize_insert_failure (st : Store) (m un : Option String)
    (uid : Int) (s : Session)
    (hfind : findSession st.botsessions uid = some s)
    (hs : s.state = "ask_note") :
    bot_update true true st ⟨m, some uid, un⟩ =
      (st, .error .persistenceError) ∧
    (bot_update true false st ⟨m, some uid, un⟩).1.appointments.length =
      st.appointments.length + 1 := by
  constructor
  · simp [bot_update, hfind, hs]
  · simp [bot_update, hfind, hs]

/-- C1: for every session in state `ask_note` (whose accumulated answers
do not already carry a `status` key — the bot flow never writes one) and
every message text, including the empty string, processing the message
appends exactly one new booking record, whose `source` field is `"bot"`,
whose `status` field is `"new"`, whose `note` field is the trimmed message
text, and which carries over the accumulated `client_name`, `phone`,
`preferred_date` and `preferred_time` values unchanged; and the session
transitions to `complete`. -/
theorem ask_note_finalizes_booking (st : Store) (m un : Option String)
    (uid : Int) (s : Session)
    (hfind : findSession st.botsessions uid = some s)
    (hs : s.state = "ask_note")
    (hstat : dictGet s.data "status" = none) :
    ∃ b : List (String × Val),
      (bot_update true false st ⟨m, some uid, un⟩).1.appointments =
        st.appointments ++ [b] ∧
      dictGet b "source" = some (.str "bot") ∧
      dictGet b "status" = some (.str "new") ∧
      dictGet b "note" = some (.str (pyStrip (m.getD ""))) ∧
      dictGet b "client_name" = dictGet s.data "client_name" ∧
      dictGet b "phone" = dictGet s.data "phone" ∧
      dictGet b "preferred_date" = dictGet s.data "preferred_date" ∧
      dictGet b "preferred_time" = dictGet s.data "preferred_time" ∧
      (findSession (bot_update true false st ⟨m, some uid, un⟩).1.botsessions
          uid).map Session.state = some "complete" := by
  have happts : (bot_update true false st ⟨m, some uid, un⟩).1.appointments =
      st.appointments ++ [apptWithDefaults (dictSet (dictSet (dictSet s.data
        "note" (.str (pyStrip (m.getD "")))) "source" (.str "bot"))
        "telegram_user_id" (.int uid))] := by
    simp [bot_update, hfind, hs]
  have hsess : (bot_update true false st ⟨m, some uid, un⟩).1.botsessions =
      setStateOnly st.botsessions s.sid "complete" := by
    simp [bot_update, hfind, hs]
  have hupd := findSession_setStateOnly st.botsessions uid s hfind s.sid
    "complete"
  rw [if_pos rfl] at hupd
  have hsource3 : dictGet (dictSet (dictSet (dictSet s.data "note"
      (.str (pyStrip (m.getD "")))) "source" (.str "bot"))
      "telegram_user_id" (.int uid)) "source" = some (.str "bot") := by
    rw [dictGet_dictSet_ne _ _ _ _ (by decide), dictGet_dictSet_self]
  have hstat3 : dictGet (dictSet (dictSet (dictSet s.data "note"
      (.str (pyStrip (m.getD "")))) "source" (.str "bot"))
      "telegram_user_id" (.int uid)) "status" = none := by
    rw [dictGet_finalizedData _ _ _ _ (by decide) (by decide) (by decide)]
    exact hstat
  refine ⟨_, happts, dictGet_apptWithDefaults_source _ _ hsource3,
    dictGet_apptWithDefaults_status _ hstat3, ?_, ?_, ?_, ?_, ?_, ?_⟩
  · rw [dictGet_apptWithDefaults _ _ (by decide) (by decide),
      dictGet_dictSet_ne _ _ _ _ (by decide),
      dictGet_dictSet_ne _ _ _ _ (by decide), dictGet_dictSet_self]
  · rw [dictGet_apptWithDefaults _ _ (by decide) (by decide),
      dictGet_finalizedData _ _ _ _ (by decide) (by decide) (by decide)]
  · rw [dictGet_apptWithDefaults _ _ (by decide) (by decide),
      dictGet_finalizedData _ _ _ _ (by decide) (by decide) (by decide)]
  · rw [dictGet_apptWithDefaults _ _ (by decide) (by decide),
      dictGet_finalizedData _ _ _ _ (by decide) (by decide) (by decide)]
  · rw [dictGet_apptWithDefaults _ _ (by decide) (by decide),
      dictGet_finalizedData _ _ _ _ (by decide) (by decide) (by decide)]
  · rw [hsess, hupd]
    rfl

/-- C1 witness: the spec's own scenario step: user 42 at `ask_note` with
name, phone, date and time accumulated sends `"no preference"`: one
booking with `source = "bot"`, `status = "new"` and all five fields, and
the session reaches `complete`. -/
theorem ask_note_finalizes_booking_witness :
    ∃ b : List (String × Val),
      (bot_update true false
          ⟨[⟨0, 42, "ask_note",
            [("client_name", .str "Alex"), ("phone", .str "+1555"),
             ("preferred_date", .str "2025-12-01"),
             ("preferred_time", .str "14:00")]⟩], []⟩
          ⟨some "no preference", some 42, none⟩).1.appointments =
        [] ++ [b] ∧
      dictGet b "source" = some (.str "bot") ∧
      dictGet b "status" = some (.str "new") ∧
      dictGet b "note" = some (.str "no preference") ∧
      dictGet b "client_name" = some (.str "Alex") ∧
      dictGet b "phone" = some (.str "+1555") ∧
      dictGet b "preferred_date" = some (.str "2025-12-01") ∧
      dictGet b "preferred_time" = some (.str "14:00") ∧
      (findSession (bot_update true false
          ⟨[⟨0, 42, "ask_note",
            [("client_name", .str "Alex"), ("phone", .str "+1555"),
             ("preferred_date", .str "2025-12-01"),
             ("preferred_time", .str "14:00")]⟩], []⟩
          ⟨some "no preference", some 42, none⟩).1.botsessions 42).map
        Session.state = some "complete" :=
  ask_note_finalizes_booking
    ⟨[⟨0, 42, "ask_note",
      [("client_name", .str "Alex"), ("phone", .str "+1555"),
       ("preferred_date", .str "2025-12-01"),
       ("preferred_time", .str "14:00")]⟩], []⟩
    (some "no preference") none 42
    ⟨0, 42, "ask_note",
      [("client_name", .str "Alex"), ("phone", .str "+1555"),
       ("preferred_date", .str "2025-12-01"),
       ("preferred_time", .str "14:00")]⟩ rfl rfl rfl

/-- C3 (amended): for every session in state `ask_note` and every message
text, the transition writes `note` (the trimmed text), `source = "bot"`
and the external user id into the booking record it creates — but the
finalizing session update patches only `state`, so the session's persisted
accumulated answers stay exactly as they were (they do not gain `note`,
`source` or the user id), while the persisted state becomes `complete`. -/
theorem ask_note_answers_go_to_booking_only (st : Store) (m un : Option String)
    (uid : Int) (s : Session)
    (hfind : findSession st.botsessions uid = some s)
    (hs : s.state = "ask_note") :
    ∃ b : List (String × Val),
      (bot_update true false st ⟨m, some uid, un⟩).1.appointments =
        st.appointments ++ [b] ∧
      dictGet b "note" = some (.str (pyStrip (m.getD ""))) ∧
      dictGet b "source" = some (.str "bot") ∧
      dictGet b "telegram_user_id" = some (.int uid) ∧
      findSession (bot_update true false st ⟨m, some uid, un⟩).1.botsessions
        uid = some { s with state := "complete" } := by
  have happts : (bot_update true false st ⟨m, some uid, un⟩).1.appointments =
      st.appointments ++ [apptWithDefaults (dictSet (dictSet (dictSet s.data
        "note" (.str (pyStrip (m.getD "")))) "source" (.str "bot"))
        "telegram_user_id" (.int uid))] := by
    simp [bot_update, hfind, hs]
  have hsess : (bot_update true false st ⟨m, some uid, un⟩).1.botsessions =
      setStateOnly st.botsessions s.sid "complete" := by
    simp [bot_update, hfind, hs]
  have hupd := findSession_setStateOnly st.botsessions uid s hfind s.sid
    "complete"
  rw [if_pos rfl] at hupd
  have hsource3 : dictGet (dictSet (dictSet (dictSet s.data "note"
      (.str (pyStrip (m.getD "")))) "source" (.str "bot"))
      "telegram_user_id" (.int uid)) "source" = some (.str "bot") := by
    rw [dictGet_dictSet_ne _ _ _ _ (by decide), dictGet_dictSet_self]
  refine ⟨_, happts, ?_, dictGet_apptWithDefaults_source _ _ hsource3, ?_, ?_⟩
  · rw [dictGet_apptWithDefaults _ _ (by decide) (by decide),
      dictGet_dictSet_ne _ _ _ _ (by decide),
      dictGet_dictSet_ne _ _ _ _ (by decide), dictGet_dictSet_self]
  · rw [dictGet_apptWithDefaults _ _ (by decide) (by decide),
      dictGet_dictSet_self]
  · rw [hsess, hupd]

/-- C3 witness: user 7 at `ask_note` with `client_name = "A"` accumulated
sends `"great"`: the booking gets `note`, `source` and the user id, while
the persisted session keeps exactly its old answers with state
`complete`. -/
theorem ask_note_answers_go_to_booking_only_witness :
    ∃ b : List (String × Val),
      (bot_update true false
          ⟨[⟨0, 7, "ask_note", [("client_name", .str "A")]⟩], []⟩
          ⟨some "great", some 7, none⟩).1.appointments = [] ++ [b] ∧
      dictGet b "note" = some (.str "great") ∧
      dictGet b "source" = some (.str "bot") ∧
      dictGet b "telegram_user_id" = some (.int 7) ∧
      findSession (bot_update true false
          ⟨[⟨0, 7, "ask_note", [("client_name", .str "A")]⟩], []⟩
          ⟨some "great", some 7, none⟩).1.botsessions 7 =
        some ⟨0, 7, "complete", [("client_name", .str "A")]⟩ :=
  ask_note_answers_go_to_booking_only
    ⟨[⟨0, 7, "ask_note", [("client_name", .str "A")]⟩], []⟩ (some "great")
    none 7 ⟨0, 7, "ask_note", [("client_name", .str "A")]⟩ rfl rfl

/-- C3 counterexample: with a stored `ask_note` session whose answers are
exactly `client_name = "A"`, processing `"great"` leaves the persisted
session answers unchanged: they contain no `note` key afterwards, contrary
to the claim that the persisted accumulated answers contain `note` after
the transition. -/
theorem ask_note_persisted_note_counterexample :
    (findSession (bot_update true false
        ⟨[⟨0, 7, "ask_note", [("client_name", Val.str "A")]⟩], []⟩
        ⟨some "great", some 7, none⟩).1.botsessions 7).map
      (fun t => t.data) = some [("client_name", Val.str "A")] ∧
    dictGet [("client_name", Val.str "A")] "note" = none :=
  ⟨rfl, rfl⟩

/-- C4 witness: a session at `ask_note` whose finalizing insert fails:
error propagated, store (state and bookings) unchanged; with the insert
succeeding, one booking is appended. -/
theorem finalize_insert_failure_witness :
    bot_update true true ⟨[⟨0, 7, "ask_note", []⟩], []⟩ ⟨some "n", some 7, none⟩ =
      ((⟨[⟨0, 7, "ask_note", []⟩], []⟩ : Store), .error .persistenceError) ∧
    (bot_update true false ⟨[⟨0, 7, "ask_note", []⟩], []⟩
        ⟨some "n", some 7, none⟩).1.appointments.length =
      ([] : List (List (String × Val))).length + 1 :=
  finalize_insert_failure ⟨[⟨0, 7, "ask_note", []⟩], []⟩ (some "n") none 7
    ⟨0, 7, "ask_note", []⟩ rfl rfl
